import Mathlib

/-!
# Verification of the simple-to-do-list backend

Shallow embedding of the todo backend (`src/todo_backend/src/api/`):

* `database.py` — the connection manager `get_db_connection` and the
  fail-fast module initialisation around `SQLITE_DB`;
* `schemas.py` — the pydantic validation rules of `TodoBase`/`TodoCreate`
  and `TodoUpdate`;
* the repository operations (create / update / set-completed), which live
  in `routes.py` (imported by `main.py` but not part of the sources at
  hand) and are therefore modelled from the specification.

Machine-level details (SQLite wire protocol, HTTP) are abstracted: the
store content is an arbitrary type `α`, a connection scope is classified
by where (if anywhere) it fails, and the primitive connection operations
that actually ran are recorded as an event list.
-/

namespace TodoBackend

/-! ## Connection manager (`database.py`) -/

/-- Exceptions that can cross the `get_db_connection` scope.  The code's
`except sqlite3.Error` clause distinguishes exactly these two classes:
`sqlite3.Error` (the spec's `StorageError`) and everything else. -/
inductive PyExc where
  | sqliteError
  | otherError
deriving DecidableEq, Repr

/-- Primitive connection operations that completed successfully, in the
order the scope performed them. -/
inductive DBEvent where
  | connect
  | commit
  | rollback
  | close
deriving DecidableEq, Repr

/-- One execution of the `get_db_connection` scope, classified by where it
fails.  `writes` is the function the body applies to the store content;
it becomes durable only if `conn.commit()` succeeds. -/
inductive ScopeRun (α : Type) where
  | connectFail
  | bodyRaises (writes : α → α) (e : PyExc)
  | commitFail (writes : α → α)
  | success (writes : α → α)

/-- Observable outcome of one scope: the durable store content after the
scope exits, the successful primitive operations in order, and the
exception propagated to the caller (if any). -/
structure ScopeExit (α : Type) where
  durable : α
  events : List DBEvent
  error : Option PyExc

/-- Embedding of `get_db_connection` (`database.py` lines 24-51).

```
conn = None
try:
    conn = sqlite3.connect(SQLITE_DB_PATH)
    conn.row_factory = sqlite3.Row
    yield conn
    conn.commit()
except sqlite3.Error as e:
    if conn: conn.rollback()
    raise e
finally:
    if conn: conn.close()
```

Paths: if `connect` itself raises, `conn` is `None`, so neither rollback
nor close runs.  If the body raises `sqlite3.Error`, the `except` clause
rolls back, re-raises, and `finally` closes.  If the body raises any
other exception, the `except` clause does not match, `finally` closes,
and the exception propagates; SQLite discards (rolls back) an
uncommitted transaction when the connection is closed, so the durable
content is unchanged.  If the body succeeds but `conn.commit()` raises
`sqlite3.Error`, the scope rolls back and closes.  Only a successful
`conn.commit()` makes the body's writes durable. -/
def get_db_connection {α : Type} (db : α) : ScopeRun α → ScopeExit α
  | .connectFail => ⟨db, [], some .sqliteError⟩
  | .bodyRaises _w .sqliteError => ⟨db, [.connect, .rollback, .close], some .sqliteError⟩
  | .bodyRaises _w .otherError => ⟨db, [.connect, .close], some .otherError⟩
  | .commitFail _w => ⟨db, [.connect, .rollback, .close], some .sqliteError⟩
  | .success w => ⟨w db, [.connect, .commit, .close], none⟩

/-! ## Module initialisation (`database.py` lines 16-22) -/

/-- The two startup exceptions of `database.py`. -/
inductive StartupError where
  | valueError
  | fileNotFoundError
deriving DecidableEq, Repr

/-- Embedding of the module-level initialisation of `database.py`:

```
SQLITE_DB_PATH = os.getenv("SQLITE_DB")
if not SQLITE_DB_PATH:
    raise ValueError(...)
if not os.path.exists(SQLITE_DB_PATH):
    raise FileNotFoundError(...)
```

`os.getenv` yields `none` when the variable is unset; Python's
`if not SQLITE_DB_PATH` is also true for the empty string, so a
variable set to `""` raises `ValueError` as well.  `pathExists` stands
for `os.path.exists`. -/
def moduleInit (sqlite_db : Option String) (pathExists : String → Bool) :
    Except StartupError String :=
  match sqlite_db with
  | none => .error .valueError
  | some p =>
    if p = "" then .error .valueError
    else if pathExists p then .ok p
    else .error .fileNotFoundError

/-! ## Pydantic schemas (`schemas.py`) -/

/-- A create request body as received: each field independently present or
absent (`none` = omitted). -/
structure TodoCreatePayload where
  title : Option String
  description : Option String
  completed : Option Bool
deriving DecidableEq, Repr

/-- Field-level validation failures of the pydantic schemas (surfaced by
FastAPI as a 422 `ValidationError`). -/
inductive SchemaError where
  | missingTitle
  | titleTooShort
  | titleTooLong
  | descriptionTooLong
deriving DecidableEq, Repr

/-- `title: str = Field(..., min_length=1, max_length=500)`
(`schemas.py` line 12). -/
def titleValid (t : String) : Bool := 1 ≤ t.length && t.length ≤ 500

/-- `description: Optional[str] = Field(default="", max_length=2000)`
(`schemas.py` line 13): the only bound on a supplied description. -/
def descriptionValid (d : String) : Bool := d.length ≤ 2000

/-- A validated `TodoBase`/`TodoCreate` value: defaults filled in. -/
structure TodoData where
  title : String
  description : String
  completed : Bool
deriving DecidableEq, Repr

/-- Validation of `TodoCreate` (= `TodoBase`, `schemas.py` lines 10-14):
`title` is required with length in 1..500; `description` defaults to `""`
and, when supplied, must have length at most 2000; `completed` defaults
to `false`.  Pydantic applies no whitespace stripping here (no
`str_strip_whitespace` config), so length is counted on the string as
given. -/
def TodoCreate.validate (p : TodoCreatePayload) : Except SchemaError TodoData :=
  match p.title with
  | none => .error .missingTitle
  | some t =>
    if t.length < 1 then .error .titleTooShort
    else if 500 < t.length then .error .titleTooLong
    else
      let d := p.description.getD ""
      if 2000 < d.length then .error .descriptionTooLong
      else .ok ⟨t, d, p.completed.getD false⟩

/-- Whether a create request passes validation. -/
def createAccepts (p : TodoCreatePayload) : Bool :=
  match TodoCreate.validate p with
  | .ok _ => true
  | .error _ => false

/-- An update request body (`TodoUpdate`, `schemas.py` lines 31-44): all
three fields optional, `none` meaning absent. -/
structure TodoUpdatePayload where
  title : Option String
  description : Option String
  completed : Option Bool
deriving DecidableEq, Repr

/-- Validation of `TodoUpdate` (`schemas.py` lines 42-44): an absent field
is always valid; a supplied `title` must satisfy `min_length=1,
max_length=500`; a supplied `description` must satisfy `max_length=2000`
(no minimum); a supplied `completed` is any boolean. -/
def TodoUpdate.validate (p : TodoUpdatePayload) : Bool :=
  (match p.title with | none => true | some t => titleValid t)
  && (match p.description with | none => true | some d => descriptionValid d)

/-- `true` iff `s` is non-empty and every character is whitespace. -/
def whitespaceOnly (s : String) : Bool :=
  !s.data.isEmpty && s.data.all Char.isWhitespace

/-! ## Todo repository

The five persistence operations live in `routes.py`, which `main.py`
imports but which is not among the sources at hand; the operations used
by the claims are therefore modelled from the specification, on top of
the `schemas.py` validation embedded above.  Timestamps are modelled as
natural numbers (`now`). -/

/-- A stored Todo row. -/
structure Todo where
  id : Nat
  title : String
  description : String
  completed : Bool
  created_at : Nat
  updated_at : Nat
deriving DecidableEq, Repr

/-- The store: the list of Todo rows. -/
abbrev Repo := List Todo

/-- The next system-generated id: one more than the largest id in use. -/
def nextId (r : Repo) : Nat := (r.map Todo.id).foldr max 0 + 1

/-- Repository-level errors for the mutating operations. -/
inductive RepoError where
  | notFound
  | invalid
deriving DecidableEq, Repr

/-- Modelled from the spec: the `create` repository operation
(`routes.py`, not in the sources): validates the payload against
`TodoCreate`, assigns the next unique id, and sets
`created_at = updated_at = now`. -/
def Repo.create (r : Repo) (p : TodoCreatePayload) (now : Nat) :
    Except SchemaError Repo :=
  match TodoCreate.validate p with
  | .error e => .error e
  | .ok d => .ok (r ++ [⟨nextId r, d.title, d.description, d.completed, now, now⟩])

/-- Modelled from the spec: applying a validated partial update to one
row — each supplied field replaces the old value, each absent field keeps
it, and `updated_at` is refreshed; `id` and `created_at` never change. -/
def applyUpdate (p : TodoUpdatePayload) (now : Nat) (t : Todo) : Todo :=
  { t with
    title := p.title.getD t.title
    description := p.description.getD t.description
    completed := p.completed.getD t.completed
    updated_at := now }

/-- Modelled from the spec: the `update(id, partialFields)` repository
operation (`routes.py`, not in the sources): `NotFoundError` if the id is
absent, `ValidationError` if a supplied field violates `TodoUpdate`,
otherwise the row with that id is updated via `applyUpdate`. -/
def Repo.update (r : Repo) (i : Nat) (p : TodoUpdatePayload) (now : Nat) :
    Except RepoError Repo :=
  if r.any (fun t => t.id == i) then
    if TodoUpdate.validate p then
      .ok (r.map fun t => if t.id == i then applyUpdate p now t else t)
    else .error .invalid
  else .error .notFound

/-- Modelled from the spec: the `setCompleted(id, completed)` repository
operation (`routes.py`, not in the sources): touches only `completed` and
`updated_at` of the row with that id; `NotFoundError` if absent. -/
def Repo.setCompleted (r : Repo) (i : Nat) (c : Bool) (now : Nat) :
    Except RepoError Repo :=
  if r.any (fun t => t.id == i) then
    .ok (r.map fun t =>
      if t.id == i then { t with completed := c, updated_at := now } else t)
  else .error .notFound

/-- One mutating repository operation (for stating invariants over
arbitrary operation sequences). -/
inductive RepoOp where
  | create (p : TodoCreatePayload)
  | update (i : Nat) (p : TodoUpdatePayload)
  | setCompleted (i : Nat) (c : Bool)
deriving DecidableEq, Repr

/-- Apply one operation at time `now`; an operation that fails validation
or hits a missing id leaves the store unchanged (the transaction rolls
back). -/
def Repo.applyOp (r : Repo) (now : Nat) : RepoOp → Repo
  | .create p => match Repo.create r p now with | .ok s => s | .error _ => r
  | .update i p => match Repo.update r i p now with | .ok s => s | .error _ => r
  | .setCompleted i c =>
      match Repo.setCompleted r i c now with | .ok s => s | .error _ => r

/-- Run a sequence of timestamped operations from a starting store. -/
def Repo.runOps (r : Repo) : List (RepoOp × Nat) → Repo
  | [] => r
  | (op, now) :: rest => Repo.runOps (Repo.applyOp r now op) rest

/-- The store invariant that the validation rules actually enforce on
titles: every stored title is non-empty. -/
def titlesOk (r : Repo) : Prop := ∀ t ∈ r, 1 ≤ t.title.length

/-- A string of `n` copies of the letter `a`, for length-boundary
test inputs. -/
def longString (n : Nat) : String := String.mk (List.replicate n 'a')

end TodoBackend

namespace TodoBackend

/-! ## Claims about the connection manager -/

/-- C1: in every execution of the `get_db_connection` scope whose body
raises an exception, the pending (uncommitted) changes are rolled back —
the durable store content is exactly what it was at entry — before the
exception propagates to the caller, and the connection is closed on that
error path. -/
theorem scope_body_error_rolls_back_and_closes {α : Type} (db : α)
    (w : α → α) (e : PyExc) :
    (get_db_connection db (.bodyRaises w e)).error = some e ∧
    (get_db_connection db (.bodyRaises w e)).durable = db ∧
    DBEvent.close ∈ (get_db_connection db (.bodyRaises w e)).events := by
  cases e <;> simp [get_db_connection]

/-- C2: in every execution of the `get_db_connection` scope that completes
without raising, the pending changes are committed exactly once (the body's
writes become durable) and the connection is then closed: the event trace
is connect, one commit, close, in that order. -/
theorem scope_success_commits_once_then_closes {α : Type} (db : α) (w : α → α) :
    (get_db_connection db (.success w)).error = none ∧
    (get_db_connection db (.success w)).durable = w db ∧
    (get_db_connection db (.success w)).events.count DBEvent.commit = 1 ∧
    (get_db_connection db (.success w)).events
      = [DBEvent.connect, DBEvent.commit, DBEvent.close] := by
  refine ⟨rfl, rfl, ?_, rfl⟩
  simp [get_db_connection]

/-- C3: every store error (`sqlite3.Error`) raised inside an open
connection-manager scope — whether by the body mid-operation or by the
final commit — propagates to the caller as that same store-error type
(the spec's `StorageError`), and an explicit rollback is performed before
the close that precedes propagation. -/
theorem storage_error_propagates_after_rollback {α : Type} (db : α)
    (w : α → α) (run : ScopeRun α)
    (h : run = .bodyRaises w .sqliteError ∨ run = .commitFail w) :
    (get_db_connection db run).error = some PyExc.sqliteError ∧
    (get_db_connection db run).durable = db ∧
    (get_db_connection db run).events
      = [DBEvent.connect, DBEvent.rollback, DBEvent.close] := by
  rcases h with h | h <;> subst h <;> exact ⟨rfl, rfl, rfl⟩

/-- Witness for C3 at a concrete run: a body raising `sqlite3.Error` over a
`Nat` store. -/
theorem storage_error_propagates_after_rollback_witness :
    (get_db_connection (0 : Nat) (.bodyRaises (· + 1) .sqliteError)).error
        = some PyExc.sqliteError ∧
    (get_db_connection (0 : Nat) (.bodyRaises (· + 1) .sqliteError)).durable = 0 ∧
    (get_db_connection (0 : Nat) (.bodyRaises (· + 1) .sqliteError)).events
        = [DBEvent.connect, DBEvent.rollback, DBEvent.close] :=
  storage_error_propagates_after_rollback 0 (· + 1) _ (Or.inl rfl)

/-- C4: if the `SQLITE_DB` environment variable is unset (or empty, which
Python's truthiness test treats the same way), or the path it names does
not exist, module initialisation raises an error; and conversely the only
way initialisation succeeds — the only way any connection can later be
served — is with a set, non-empty path that exists. -/
theorem moduleInit_fails_fast :
    (∀ pathExists : String → Bool,
        moduleInit none pathExists = .error .valueError) ∧
    (∀ (p : String) (pathExists : String → Bool), pathExists p = false →
        ∃ e, moduleInit (some p) pathExists = .error e) ∧
    (∀ (env : Option String) (pathExists : String → Bool) (p : String),
        moduleInit env pathExists = .ok p →
        env = some p ∧ p ≠ "" ∧ pathExists p = true) := by
  refine ⟨fun _ => rfl, ?_, ?_⟩
  · intro p pathExists hpe
    by_cases hp : p = ""
    · exact ⟨.valueError, by simp [moduleInit, hp]⟩
    · exact ⟨.fileNotFoundError, by simp [moduleInit, hp, hpe]⟩
  · intro env pathExists p hok
    match env with
    | none => simp [moduleInit] at hok
    | some q =>
      by_cases hq : q = ""
      · simp [moduleInit, hq] at hok
      · by_cases hpe : pathExists q
        · simp [moduleInit, hq, hpe] at hok
          exact ⟨by rw [hok], by rw [← hok]; exact hq, by rw [← hok]; exact hpe⟩
        · simp [moduleInit, hq, hpe] at hok

/-- Witness for C4 at concrete inputs: an unset variable, a set variable
whose path does not exist, and a successful initialisation. -/
theorem moduleInit_fails_fast_witness :
    moduleInit none (fun _ => true) = .error .valueError ∧
    (∃ e, moduleInit (some "/db/todo.db") (fun _ => false) = .error e) ∧
    (some "/db/todo.db" = some "/db/todo.db" ∧ "/db/todo.db" ≠ "" ∧
      (fun _ : String => true) "/db/todo.db" = true) :=
  ⟨moduleInit_fails_fast.1 (fun _ => true),
   moduleInit_fails_fast.2.1 "/db/todo.db" (fun _ => false) rfl,
   moduleInit_fails_fast.2.2 (some "/db/todo.db") (fun _ => true) "/db/todo.db" rfl⟩

/-! ## Claims about the validation rules (`schemas.py`) -/

/-- The length of `longString n` is `n`. -/
theorem longString_length (n : Nat) : (longString n).length = n := by
  simp [longString, String.length]

/-- C5: a create payload with empty title fails validation; one whose
title has length 501 fails; a title of length 500 passes title
validation; and a supplied description of length over 2000 fails
validation. -/
theorem create_validation_bounds :
    (∀ d c, createAccepts ⟨some "", d, c⟩ = false) ∧
    (∀ t d c, t.length = 501 → createAccepts ⟨some t, d, c⟩ = false) ∧
    (∀ t, t.length = 500 → titleValid t = true) ∧
    (∀ t d c, 2000 < d.length → createAccepts ⟨some t, some d, c⟩ = false) := by
  refine ⟨fun d c => rfl, ?_, ?_, ?_⟩
  · intro t d c h
    simp [createAccepts, TodoCreate.validate, h]
  · intro t h
    simp [titleValid, h]
  · intro t d c h
    by_cases h1 : t.length < 1
    · simp [createAccepts, TodoCreate.validate, h1]
    · by_cases h2 : 500 < t.length
      · simp [createAccepts, TodoCreate.validate, h1, h2]
      · simp [createAccepts, TodoCreate.validate, h1, h2, h]

/-- Witness for C5 at concrete strings of lengths 0, 501, 500 and 2001. -/
theorem create_validation_bounds_witness :
    createAccepts ⟨some "", none, none⟩ = false ∧
    createAccepts ⟨some (longString 501), none, none⟩ = false ∧
    titleValid (longString 500) = true ∧
    createAccepts ⟨some "a", some (longString 2001), none⟩ = false :=
  ⟨create_validation_bounds.1 none none,
   create_validation_bounds.2.1 (longString 501) none none (longString_length 501),
   create_validation_bounds.2.2.1 (longString 500) (longString_length 500),
   create_validation_bounds.2.2.2 "a" (longString 2001) none
     (by rw [longString_length]; omega)⟩

/-- C8: the description of a create request is optional — when it is
omitted, validation (if it succeeds) stores the empty string; a payload
with a valid title and no description always passes; and with a valid
title, a supplied description is accepted exactly when its length is at
most 2000. -/
theorem description_optional_default_and_bound :
    (∀ t c d, TodoCreate.validate ⟨t, none, c⟩ = .ok d → d.description = "") ∧
    (∀ t c, titleValid t = true → createAccepts ⟨some t, none, c⟩ = true) ∧
    (∀ t s c, titleValid t = true →
      (createAccepts ⟨some t, some s, c⟩ = true ↔ s.length ≤ 2000)) := by
  have hbounds : ∀ t : String, titleValid t = true →
      ¬ t.length < 1 ∧ ¬ 500 < t.length := by
    intro t ht
    simp [titleValid] at ht
    omega
  refine ⟨?_, ?_, ?_⟩
  · intro t c d hok
    match t with
    | none => simp [TodoCreate.validate] at hok
    | some u =>
      simp only [TodoCreate.validate, Option.getD_none] at hok
      split_ifs at hok
      all_goals
        first
          | exact Except.noConfusion hok
          | (injection hok with hok
             exact (congrArg TodoData.description hok).symm)
  · intro t c ht
    obtain ⟨h1, h2⟩ := hbounds t ht
    simp [createAccepts, TodoCreate.validate, h1, h2]
  · intro t s c ht
    obtain ⟨h1, h2⟩ := hbounds t ht
    by_cases hs : 2000 < s.length
    · have hs2 : ¬ s.length ≤ 2000 := by omega
      simp [createAccepts, TodoCreate.validate, h1, h2, hs, hs2]
    · have hs2 : s.length ≤ 2000 := by omega
      simp [createAccepts, TodoCreate.validate, h1, h2, hs, hs2]

/-- Witness for C8: omitted description validates to `""`; description
"hi" of length 2 is accepted alongside title "a". -/
theorem description_optional_default_and_bound_witness :
    (TodoCreate.validate ⟨some "a", none, none⟩
        = .ok ⟨"a", "", false⟩ → (⟨"a", "", false⟩ : TodoData).description = "") ∧
    createAccepts ⟨some "a", none, none⟩ = true ∧
    (createAccepts ⟨some "a", some "hi", none⟩ = true ↔ ("hi" : String).length ≤ 2000) :=
  ⟨description_optional_default_and_bound.1 (some "a") none ⟨"a", "", false⟩,
   description_optional_default_and_bound.2.1 "a" none (by decide),
   description_optional_default_and_bound.2.2 "a" "hi" none (by decide)⟩

/-- C9: the empty partial update `{}` — all three fields absent — passes
`TodoUpdate` validation. -/
theorem empty_update_accepted :
    TodoUpdate.validate ⟨none, none, none⟩ = true := rfl

/-- C10: the update schema validates its two string fields
asymmetrically — setting description to the empty string is valid
(description has only an upper length bound), while setting title to the
empty string is rejected (title has minimum length 1). -/
theorem update_title_description_asymmetry :
    TodoUpdate.validate ⟨none, some "", none⟩ = true ∧
    TodoUpdate.validate ⟨some "", none, none⟩ = false := by
  constructor <;> rfl

/-! ## Claims about the repository operations -/

/-- A payload that passes create validation has a non-empty title. -/
theorem TodoCreate.validate_ok_title {p : TodoCreatePayload} {d : TodoData}
    (h : TodoCreate.validate p = .ok d) : 1 ≤ d.title.length := by
  rcases p with ⟨pt, pd, pc⟩
  match pt with
  | none => exact Except.noConfusion h
  | some t =>
    simp only [TodoCreate.validate] at h
    split_ifs at h with h1 h2 h3
    all_goals
      first
        | exact Except.noConfusion h
        | (injection h with h
           rw [← h]
           exact Nat.not_lt.mp h1)

/-- A supplied title in a payload that passes update validation is
non-empty. -/
theorem TodoUpdate.validate_some_title {p : TodoUpdatePayload} {t : String}
    (h : TodoUpdate.validate p = true) (ht : p.title = some t) :
    1 ≤ t.length := by
  simp only [TodoUpdate.validate, ht, Bool.and_eq_true] at h
  have h1 := h.1
  simp [titleValid] at h1
  exact h1.1

/-- Applying a validated partial update keeps the title non-empty. -/
theorem applyUpdate_title_nonempty {p : TodoUpdatePayload} {now : Nat}
    {u : Todo} (hval : TodoUpdate.validate p = true)
    (hu : 1 ≤ u.title.length) :
    1 ≤ (applyUpdate p now u).title.length := by
  show 1 ≤ (p.title.getD u.title).length
  match hpt : p.title with
  | none => exact hu
  | some t => exact TodoUpdate.validate_some_title hval hpt

/-- `create` preserves non-emptiness of all stored titles. -/
theorem titlesOk_create {r s : Repo} {p : TodoCreatePayload} {now : Nat}
    (hr : titlesOk r) (h : Repo.create r p now = .ok s) : titlesOk s := by
  unfold Repo.create at h
  cases hv : TodoCreate.validate p with
  | error e => rw [hv] at h; exact Except.noConfusion h
  | ok d =>
    rw [hv] at h
    injection h with h
    rw [← h]
    intro t htm
    rcases List.mem_append.mp htm with hm | hm
    · exact hr t hm
    · have := List.mem_singleton.mp hm
      rw [this]
      exact TodoCreate.validate_ok_title hv

/-- `update` preserves non-emptiness of all stored titles. -/
theorem titlesOk_update {r s : Repo} {i : Nat} {p : TodoUpdatePayload}
    {now : Nat} (hr : titlesOk r) (h : Repo.update r i p now = .ok s) :
    titlesOk s := by
  unfold Repo.update at h
  split_ifs at h with hmem hval
  injection h with h
  rw [← h]
  intro t htm
  rcases List.mem_map.mp htm with ⟨u, hu, rfl⟩
  split
  · exact applyUpdate_title_nonempty hval (hr u hu)
  · exact hr u hu

/-- `setCompleted` preserves non-emptiness of all stored titles. -/
theorem titlesOk_setCompleted {r s : Repo} {i : Nat} {c : Bool} {now : Nat}
    (hr : titlesOk r) (h : Repo.setCompleted r i c now = .ok s) :
    titlesOk s := by
  unfold Repo.setCompleted at h
  split_ifs at h with hmem
  injection h with h
  rw [← h]
  intro t htm
  rcases List.mem_map.mp htm with ⟨u, hu, rfl⟩
  split
  · exact hr u hu
  · exact hr u hu

/-- One applied operation preserves non-emptiness of all stored titles. -/
theorem titlesOk_applyOp {r : Repo} {now : Nat} (op : RepoOp)
    (hr : titlesOk r) : titlesOk (Repo.applyOp r now op) := by
  cases op with
  | create p =>
    simp only [Repo.applyOp]
    cases hc : Repo.create r p now with
    | ok s => exact titlesOk_create hr hc
    | error e => exact hr
  | update i p =>
    simp only [Repo.applyOp]
    cases hc : Repo.update r i p now with
    | ok s => exact titlesOk_update hr hc
    | error e => exact hr
  | setCompleted i c =>
    simp only [Repo.applyOp]
    cases hc : Repo.setCompleted r i c now with
    | ok s => exact titlesOk_setCompleted hr hc
    | error e => exact hr

/-- Any operation sequence preserves non-emptiness of all stored
titles. -/
theorem titlesOk_runOps (ops : List (RepoOp × Nat)) :
    ∀ r : Repo, titlesOk r → titlesOk (Repo.runOps r ops) := by
  induction ops with
  | nil => intro r hr; exact hr
  | cons hd tl ih =>
    intro r hr
    rcases hd with ⟨op, now⟩
    exact ih (Repo.applyOp r now op) (titlesOk_applyOp op hr)

/-- C6 counterexample: the validation rules apply no whitespace
stripping, so creating a todo whose title is the single space `" "`
passes validation (its length is 1), and the store then holds a todo
whose title consists only of whitespace — contradicting the claim that a
stored title never consists only of whitespace characters. -/
theorem whitespace_only_title_stored :
    (⟨1, " ", "", false, 5, 5⟩ : Todo) ∈
      Repo.runOps [] [(RepoOp.create ⟨some " ", none, none⟩, 5)] ∧
    whitespaceOnly " " = true := by
  constructor
  · decide
  · decide

/-- C6 (amended): after any sequence of create/update/setCompleted
operations starting from the empty store, every stored todo's title is
non-empty (length at least 1).  The stronger original claim — that a
stored title is also never whitespace-only — fails: see the
counterexample. -/
theorem stored_titles_never_empty (ops : List (RepoOp × Nat)) (t : Todo)
    (ht : t ∈ Repo.runOps [] ops) : 1 ≤ t.title.length :=
  titlesOk_runOps ops [] (fun u hu => absurd hu (List.not_mem_nil u)) t ht

/-- Witness for the amended C6 at a concrete run: one created todo. -/
theorem stored_titles_never_empty_witness :
    (⟨1, "Buy milk", "", false, 0, 0⟩ : Todo) ∈
      Repo.runOps [] [(RepoOp.create ⟨some "Buy milk", none, none⟩, 0)] ∧
    1 ≤ (⟨1, "Buy milk", "", false, 0, 0⟩ : Todo).title.length :=
  ⟨by decide,
   stored_titles_never_empty [(RepoOp.create ⟨some "Buy milk", none, none⟩, 0)]
     ⟨1, "Buy milk", "", false, 0, 0⟩ (by decide)⟩

/-- C7: when `update(id, partialFields)` succeeds, every row with a
different id is kept verbatim, and the row with the target id becomes
`applyUpdate p now t`, which keeps `id` and `created_at`, keeps every
field the payload does not supply (title, description, completed), sets
every supplied field to the supplied value, and refreshes `updated_at`
to the current time. -/
theorem update_applies_only_supplied_fields
    (r s : Repo) (i : Nat) (p : TodoUpdatePayload) (now : Nat)
    (h : Repo.update r i p now = .ok s) (t : Todo) (ht : t ∈ r) :
    (t.id ≠ i → t ∈ s) ∧
    (t.id = i →
      applyUpdate p now t ∈ s ∧
      (applyUpdate p now t).id = t.id ∧
      (applyUpdate p now t).created_at = t.created_at ∧
      (p.title = none → (applyUpdate p now t).title = t.title) ∧
      (p.description = none →
        (applyUpdate p now t).description = t.description) ∧
      (p.completed = none → (applyUpdate p now t).completed = t.completed) ∧
      (∀ x, p.title = some x → (applyUpdate p now t).title = x) ∧
      (∀ x, p.description = some x → (applyUpdate p now t).description = x) ∧
      (∀ x, p.completed = some x → (applyUpdate p now t).completed = x) ∧
      (applyUpdate p now t).updated_at = now) := by
  unfold Repo.update at h
  split_ifs at h with hmem hval
  injection h with h
  rw [← h]
  constructor
  · intro hne
    have hb : (t.id == i) = false := by
      simp only [beq_eq_false_iff_ne, ne_eq]
      exact hne
    have hfix : (fun u => if u.id == i then applyUpdate p now u else u) t = t := by
      simp only [hb, Bool.false_eq_true, if_false]
    exact List.mem_map.mpr ⟨t, ht, hfix⟩
  · intro heq
    have hb : (t.id == i) = true := beq_iff_eq.mpr heq
    refine ⟨?_, rfl, rfl, ?_, ?_, ?_, ?_, ?_, ?_, rfl⟩
    · have hfix : (fun u => if u.id == i then applyUpdate p now u else u) t
          = applyUpdate p now t := by
        simp only [hb, if_true]
      exact List.mem_map.mpr ⟨t, ht, hfix⟩
    · intro hx
      show p.title.getD t.title = t.title
      rw [hx]
      rfl
    · intro hx
      show p.description.getD t.description = t.description
      rw [hx]
      rfl
    · intro hx
      show p.completed.getD t.completed = t.completed
      rw [hx]
      rfl
    · intro x hx
      show p.title.getD t.title = x
      rw [hx]
      rfl
    · intro x hx
      show p.description.getD t.description = x
      rw [hx]
      rfl
    · intro x hx
      show p.completed.getD t.completed = x
      rw [hx]
      rfl

/-- Witness for C7 at a concrete store: updating todo 1 with only
`{completed: true}` keeps its title and description and stamps
`updated_at`. -/
theorem update_applies_only_supplied_fields_witness :
    applyUpdate ⟨none, none, some true⟩ 7 ⟨1, "a", "d", false, 3, 3⟩
        ∈ [(⟨1, "a", "d", true, 3, 7⟩ : Todo)] ∧
    (applyUpdate ⟨none, none, some true⟩ 7 ⟨1, "a", "d", false, 3, 3⟩).title
        = (⟨1, "a", "d", false, 3, 3⟩ : Todo).title ∧
    (applyUpdate ⟨none, none, some true⟩ 7 ⟨1, "a", "d", false, 3, 3⟩).updated_at
        = 7 := by
  have h := update_applies_only_supplied_fields
    [⟨1, "a", "d", false, 3, 3⟩] [⟨1, "a", "d", true, 3, 7⟩] 1
    ⟨none, none, some true⟩ 7 rfl ⟨1, "a", "d", false, 3, 3⟩
    (by decide)
  have h2 := h.2 rfl
  exact ⟨h2.1, h2.2.2.2.1 rfl, h2.2.2.2.2.2.2.2.2.2⟩

end TodoBackend
